import Mathlib

/-!
Verification development for the penguins training pipeline
(`src/pipelines/training.py`).

The file shallowly embeds:
* the join-merge statistics computed by `average_scores`
  (mean / population standard deviation over the per-fold metrics),
* the step graph declared by the `self.next(...)` calls,
* the threshold gate of `register_model`,
* the fold generation of `cross_validation` (5-fold `KFold` + `enumerate`),
* the error wrapping in `start`,
and — for the orchestration-engine behaviour the repository delegates to
its workflow substrate (foreach spawning, join barriers, artifact merge) —
models written from the specification, marked as such in their doc
comments.
-/

namespace Training

/-- Embedding of `np.mean(values)` over one column of the `metrics` matrix
built in `average_scores` (src/pipelines/training.py:275-276):
the arithmetic mean `sum / length` of the per-branch scalar values. -/
def npMean (l : List ℚ) : ℚ := l.sum / l.length

/-- Embedding of the square of `np.std(values)` over one column of the
`metrics` matrix (src/pipelines/training.py:277).  `np.std` uses `ddof = 0`,
i.e. the population statistic: the variance is
`(1/K) * Σ (v_i - mean)^2`; the standard deviation reported by the code is
the (real) square root of this value. -/
def npVariance (l : List ℚ) : ℚ :=
  (l.map (fun v => (v - npMean l) ^ 2)).sum / l.length

/-- Embedding of `np.mean(metrics, axis=0)` on the two-column matrix
`[[test_accuracy_i, test_loss_i]]` of `average_scores`: the column-wise
means (src/pipelines/training.py:275-276). -/
def meanAxis0 (metrics : List (ℚ × ℚ)) : ℚ × ℚ :=
  (npMean (metrics.map Prod.fst), npMean (metrics.map Prod.snd))

/-- Embedding of the square of `np.std(metrics, axis=0)` on the same matrix
(src/pipelines/training.py:277): the column-wise population variances. -/
def varianceAxis0 (metrics : List (ℚ × ℚ)) : ℚ × ℚ :=
  (npVariance (metrics.map Prod.fst), npVariance (metrics.map Prod.snd))

/-- The steps of the `Training` flow, one constructor per `@step` method of
src/pipelines/training.py (`end` is a Lean keyword, hence `end_`). -/
inductive StepName where
  | start
  | cross_validation
  | transform_fold
  | train_fold
  | evaluate_fold
  | average_scores
  | transform
  | train_model
  | register_model
  | end_
deriving DecidableEq, Repr

/-- The successor declarations of the flow: for each step, the list of steps
named by its `self.next(...)` call (src/pipelines/training.py:102, 121, 153,
211, 257, 295, 317, 361, 421; `end` has no `self.next`). -/
def successors : StepName → List StepName
  | .start => [.cross_validation, .transform]
  | .cross_validation => [.transform_fold]
  | .transform_fold => [.train_fold]
  | .train_fold => [.evaluate_fold]
  | .evaluate_fold => [.average_scores]
  | .average_scores => [.register_model]
  | .transform => [.train_model]
  | .train_model => [.register_model]
  | .register_model => [.end_]
  | .end_ => []

/-- Every step of the flow, for finite quantification. -/
def allSteps : List StepName :=
  [.start, .cross_validation, .transform_fold, .train_fold, .evaluate_fold,
   .average_scores, .transform, .train_model, .register_model, .end_]

/-- The predecessors of a step, read off from `successors`. -/
def predecessors (s : StepName) : List StepName :=
  allSteps.filter (fun p => (successors p).contains s)

/-- Fuel-bounded reachability along `successors` edges. -/
def reachesIn : ℕ → StepName → StepName → Bool
  | 0, a, b => a = b
  | n + 1, a, b => a = b || (successors a).any (fun c => reachesIn n c b)

/-- The calls a run makes against the model registry. -/
inductive RegistryCall where
  | logModel
deriving DecidableEq, Repr

/-- Embedding of the `register_model` join body
(src/pipelines/training.py:369-421) after its `merge_artifacts` call: given
the merged cross-validated accuracy `a` and the run parameter
`accuracy_threshold` `t`, it calls `mlflow.pyfunc.log_model` exactly when
`a >= t`, and in either case falls through to `self.next(self.end)`.
The result is the list of registry calls made and the successor step. -/
def register_model (a t : ℚ) : List RegistryCall × StepName :=
  if a ≥ t then ([.logModel], .end_) else ([], .end_)

/-- The error raised by the `start` step when the tracker is unreachable:
`raise RuntimeError(message) from e` (src/pipelines/training.py:95-97);
the constructor carries the wrapped cause. -/
inductive StartError (ε : Type) where
  | runtimeError (cause : ε)
deriving DecidableEq, Repr

/-- Embedding of the tracker-connection part of the `start` step
(src/pipelines/training.py:89-102): `mlflow.start_run` is attempted exactly
once — its outcome is the argument `conn` — and a failure is re-raised as a
`RuntimeError` wrapping the cause; on success the step schedules its two
successors `cross_validation` and `transform`. -/
def startStep {ε ρ : Type} (conn : Except ε ρ) :
    Except (StartError ε) (ρ × List StepName) :=
  match conn with
  | .error e => .error (.runtimeError e)
  | .ok r => .ok (r, [.cross_validation, .transform])

/-- The steps scheduled after `start` runs: none when the connection to the
tracker failed (the raised `RuntimeError` aborts the run). -/
def stepsAfterStart {ε ρ : Type} (conn : Except ε ρ) : List StepName :=
  match startStep conn with
  | .error _ => []
  | .ok (_, next) => next

/-- Modelled from the spec: the terminal state of a run or of a parallel
region — the engine itself (the workflow substrate the flow runs on) is not
part of src/. -/
inductive RunStatus where
  | succeeded
  | failed
deriving DecidableEq, Repr

/-- Modelled from the spec: the observable outcome of one foreach region —
how many branch tasks were spawned, which branch indices they received,
whether the join body ran, the region status, and the join output if any. -/
structure RegionResult (σ : Type) where
  spawned : ℕ
  branchIndices : List ℕ
  joinExecuted : Bool
  status : RunStatus
  joinOutput : Option σ
deriving Repr

/-- Modelled from the spec: a `foreach` split spawns one branch task per
element of the produced iterable, each labelled with a distinct branch
index (the element's position, matching the `enumerate` labelling the flow
itself uses at src/pipelines/training.py:117). -/
def spawnBranches {α : Type} (elems : List α) : List (ℕ × α) :=
  elems.enum

/-- Modelled from the spec: execution of one foreach region.  Each spawned
branch runs `body`; `some` is a branch that reached `Succeeded`, `none` a
branch that raised `StepExecutionError`.  The join body runs only when
every branch succeeded, receiving the branch results in branch-index
order; otherwise the join never executes and the region is `Failed`. -/
def runForeachRegion {α σ : Type} (elems : List α) (body : ℕ × α → Option σ)
    (joinBody : List σ → σ) : RegionResult σ :=
  let results := (spawnBranches elems).map body
  if results.all Option.isSome then
    { spawned := (spawnBranches elems).length
      branchIndices := (spawnBranches elems).map Prod.fst
      joinExecuted := true
      status := .succeeded
      joinOutput := some (joinBody (results.filterMap id)) }
  else
    { spawned := (spawnBranches elems).length
      branchIndices := (spawnBranches elems).map Prod.fst
      joinExecuted := false
      status := .failed
      joinOutput := none }

/-- The error a join raises on an unresolved artifact conflict. -/
inductive MergeError where
  | mergeConflict (name : String)
deriving DecidableEq, Repr

/-- Modelled from the spec: the artifacts a join forwards without an
explicit resolution — every named value supplied by some converging branch
whose name is not in the explicitly resolved set. -/
def unresolvedPairs {V : Type} (branches : List (List (String × V)))
    (resolved : List String) : List (String × V) :=
  (branches.map (fun b => b.filter (fun p => ¬ resolved.contains p.1))).flatten

/-- Whether `p` clashes with some forwarded pair: same name, different
value. -/
def conflictAt {V : Type} [DecidableEq V] (pairs : List (String × V))
    (p : String × V) : Bool :=
  pairs.any (fun q => decide (p.1 = q.1 ∧ p.2 ≠ q.2))

/-- Modelled from the spec: the artifact merge performed at a join step
(the `merge_artifacts` calls at src/pipelines/training.py:271 and :385 are
its callers).  If two branches supply different values for the same
forwarded (unresolved) name, the merge raises `MergeConflictError`;
otherwise it succeeds and forwards the values. -/
def mergeArtifacts {V : Type} [DecidableEq V]
    (branches : List (List (String × V))) (resolved : List String) :
    Except MergeError (List (String × V)) :=
  match (unresolvedPairs branches resolved).find?
      (conflictAt (unresolvedPairs branches resolved)) with
  | some p => .error (.mergeConflict p.1)
  | none => .ok (unresolvedPairs branches resolved)

/-- Modelled from the spec: the terminal join of two sibling top-level
regions.  Each region either delivers its result (`some`) or has not
reached its convergence point / has failed (`none`); the join body runs
exactly when both regions have delivered. -/
def runConvergentJoin {σ τ υ : Type} (left : Option σ) (right : Option τ)
    (joinBody : σ → τ → υ) : Option υ :=
  match left, right with
  | some a, some b => some (joinBody a b)
  | _, _ => none

/-- The sizes of the test folds of scikit-learn's `KFold(n_splits=k)` on
`n` samples: `n / k + 1` for the first `n % k` folds, `n / k` for the
rest (`KFold._iter_test_indices`). -/
def foldSizes (k n : ℕ) : List ℕ :=
  (List.range k).map (fun i => n / k + if i < n % k then 1 else 0)

/-- Start offset of test fold `i` of `KFold(n_splits=k)` on `n` samples:
the sum of the sizes of the preceding folds. -/
def foldStart (k n i : ℕ) : ℕ :=
  i * (n / k) + min i (n % k)

/-- Embedding of `kfold.split(self.data)` for `KFold(n_splits=k,
shuffle=True)` (src/pipelines/training.py:112-117): `idx` is the shuffled
list of row indices; the generator yields one `(train, test)` pair per
fold, the test sets being consecutive blocks of `idx`.  scikit-learn
raises `ValueError` when `n_splits` exceeds the number of samples, here
`none`. -/
def kfoldSplit (k : ℕ) (idx : List ℕ) : Option (List (List ℕ × List ℕ)) :=
  if idx.length < k then none
  else some ((List.range k).map (fun i =>
    let s := foldStart k idx.length i
    let stop := foldStart k idx.length (i + 1)
    (idx.take s ++ idx.drop stop, (idx.drop s).take (stop - s))))

/-- Embedding of `list(enumerate(kfold.split(self.data)))`
(src/pipelines/training.py:117): labels the K generated elements with
their position; the unpack `self.fold, (...) = self.input` at line 132
makes that label the fold number carried by each spawned branch. -/
def enumerateFolds {α : Type} (splits : List α) : List (ℕ × α) :=
  splits.enum

/-- Embedding of the `self.folds` artifact built by `cross_validation`
(src/pipelines/training.py:106-121): the enumerated 5-fold split of the
dataset's (shuffled) row indices; it is the iterable of the
`foreach="folds"` split. -/
def cross_validation_folds (idx : List ℕ) :
    Option (List (ℕ × (List ℕ × List ℕ))) :=
  (kfoldSplit 5 idx).map enumerateFolds

/-- The four run parameters of the flow, declared with `Parameter(...)` at
src/pipelines/training.py:51-73. -/
def paramNames : List String :=
  ["mlflow_tracking_uri", "training_epochs", "training_batch_size",
   "accuracy_threshold"]

/-- The artifact names each step assigns (`self.<name> = ...` targets in
src/pipelines/training.py); the two join steps additionally forward merged
artifacts via `merge_artifacts`, which only copies branch artifacts.  No
step assigns to a parameter. -/
def stepWrites : StepName → List String
  | .start => ["mode", "data", "mlflow_run_id"]
  | .cross_validation => ["folds"]
  | .transform_fold =>
      ["fold", "train_indices", "test_indices", "x_train", "x_test",
       "y_train", "y_test"]
  | .train_fold => ["mlflow_fold_run_id", "model"]
  | .evaluate_fold => ["test_loss", "test_accuracy"]
  | .average_scores =>
      ["mlflow_run_id", "test_accuracy", "test_loss", "test_accuracy_std",
       "test_loss_std"]
  | .transform => ["features_transformer", "x", "target_transformer", "y"]
  | .train_model => ["model"]
  | .register_model => []
  | .end_ => []

/-- A run's state as seen by the parameter-immutability argument: the
run-scoped parameters (abstract, of type `π`) and the set of artifact
names written so far.  Executing a step appends its writes and leaves the
parameters untouched, as every step of the flow does. -/
def execStepNames {π : Type} (st : π × List String) (s : StepName) :
    π × List String :=
  (st.1, st.2 ++ stepWrites s)

theorem npMean_eq (l : List ℚ) : npMean l = l.sum / l.length := rfl

theorem npMean_perm {l l' : List ℚ} (h : l.Perm l') : npMean l = npMean l' := by
  unfold npMean
  rw [h.sum_eq, h.length_eq]

theorem npVariance_perm {l l' : List ℚ} (h : l.Perm l') :
    npVariance l = npVariance l' := by
  unfold npVariance
  rw [npMean_eq, npMean_eq, h.sum_eq, h.length_eq,
    (h.map (fun v => (v - l'.sum / l'.length) ^ 2)).sum_eq]

theorem npMean_replicate (n : ℕ) (hn : n ≠ 0) (v : ℚ) :
    npMean (List.replicate n v) = v := by
  unfold npMean
  rw [List.sum_replicate, List.length_replicate, nsmul_eq_mul]
  field_simp

theorem npVariance_replicate (n : ℕ) (hn : n ≠ 0) (v : ℚ) :
    npVariance (List.replicate n v) = 0 := by
  unfold npVariance
  rw [npMean_replicate n hn v, List.map_replicate]
  simp

/-- C1: for every non-empty list of per-branch scalar metric values, the
merge computed at the join (`average_scores`) is the arithmetic mean
`(1/K)·Σvᵢ` together with the population standard deviation
`sqrt((1/K)·Σ(vᵢ−mean)²)`; in particular for the three accuracies
0.6, 0.7, 0.8 the mean is 0.7 and the standard deviation lies strictly
between 0.0816 and 0.0817 (≈ 0.0816), and for five identical accuracies
0.8 the mean is 0.8 and the standard deviation is 0. -/
theorem C1_merge_mean_std :
    (∀ l : List ℚ, l ≠ [] →
      npMean l = (1 / (l.length : ℚ)) * l.sum ∧
      npVariance l =
        (1 / (l.length : ℚ)) * (l.map (fun v => (v - npMean l) ^ 2)).sum) ∧
    npMean [3/5, 7/10, 4/5] = 7/10 ∧
    npVariance [3/5, 7/10, 4/5] = 1/150 ∧
    (0.0816 : ℝ) < Real.sqrt ((npVariance [3/5, 7/10, 4/5] : ℚ) : ℝ) ∧
    Real.sqrt ((npVariance [3/5, 7/10, 4/5] : ℚ) : ℝ) < (0.0817 : ℝ) ∧
    npMean (List.replicate 5 (4/5)) = 4/5 ∧
    Real.sqrt ((npVariance (List.replicate 5 (4/5)) : ℚ) : ℝ) = 0 := by
  have hv : npVariance [3/5, 7/10, 4/5] = 1/150 := by
    have hm : npMean [(3 : ℚ)/5, 7/10, 4/5] = 7/10 := by
      unfold npMean
      norm_num
    unfold npVariance
    rw [hm]
    norm_num
  refine ⟨fun l hl => ⟨?_, ?_⟩, ?_, hv, ?_, ?_, ?_, ?_⟩
  · rw [npMean_eq, one_div, inv_mul_eq_div]
  · rw [npVariance, one_div, inv_mul_eq_div]
  · unfold npMean
    norm_num
  · rw [hv]
    rw [show ((((1 : ℚ)/150 : ℚ)) : ℝ) = 1/150 by push_cast; ring]
    rw [Real.lt_sqrt (by norm_num)]
    norm_num
  · rw [hv]
    rw [show ((((1 : ℚ)/150 : ℚ)) : ℝ) = 1/150 by push_cast; ring]
    rw [Real.sqrt_lt' (by norm_num)]
    norm_num
  · exact npMean_replicate 5 (by norm_num) (4/5)
  · rw [npVariance_replicate 5 (by norm_num) (4/5)]
    simp

/-- Witness for C1 at the concrete one-element list `[1]`. -/
theorem C1_merge_mean_std_witness :
    npMean [(1 : ℚ)] = (1 / (([(1 : ℚ)].length : ℚ))) * [(1 : ℚ)].sum :=
  (C1_merge_mean_std.1 [1] (by simp)).1

/-- C7: the default mean/std merge policy is order-independent — for every
permutation of the list of branch metric values the mean, the population
variance and hence the standard deviation are unchanged. -/
theorem C7_merge_order_independent (l l' : List ℚ) (h : l.Perm l') :
    npMean l' = npMean l ∧ npVariance l' = npVariance l ∧
    Real.sqrt ((npVariance l' : ℚ) : ℝ) =
      Real.sqrt ((npVariance l : ℚ) : ℝ) := by
  refine ⟨(npMean_perm h).symm, (npVariance_perm h).symm, ?_⟩
  rw [npVariance_perm h]

/-- Witness for C7 at the concrete permutation `[1, 2] ~ [2, 1]`. -/
theorem C7_merge_order_independent_witness :
    npMean [(2 : ℚ), 1] = npMean [(1 : ℚ), 2] :=
  (C7_merge_order_independent [1, 2] [2, 1] (List.Perm.swap 2 1 [])).1

/-- C2: for every merged accuracy `a` and threshold `t`, `register_model`
performs the registry publish call iff `a ≥ t`, and in both cases its
successor is the `end` step (the run succeeds); when the gate is closed no
registry call is made. -/
theorem C2_threshold_gate (a t : ℚ) :
    ((register_model a t).1 ≠ [] ↔ a ≥ t) ∧
    (register_model a t).2 = .end_ ∧
    (¬ a ≥ t → (register_model a t).1 = []) := by
  unfold register_model
  by_cases h : a ≥ t <;> simp [h]

/-- Witness for C2 at the open gate `(a, t) = (1, 0)` and the closed gate
`(a, t) = (0, 1)`. -/
theorem C2_threshold_gate_witness :
    (register_model (1 : ℚ) 0).2 = .end_ ∧ (register_model (0 : ℚ) 1).1 = [] :=
  ⟨(C2_threshold_gate 1 0).2.1, (C2_threshold_gate 0 1).2.2 (by norm_num)⟩

/-- C3: a foreach split over K generated elements spawns exactly K branch
tasks with pairwise-distinct branch indices; the join executes iff every
spawned branch reached `Succeeded`; and if some branch raised
`StepExecutionError` (`none`) the join never executes and the region is
`Failed`. -/
theorem C3_foreach_join_barrier {α σ : Type} (elems : List α)
    (body : ℕ × α → Option σ) (joinBody : List σ → σ) :
    (runForeachRegion elems body joinBody).spawned = elems.length ∧
    (runForeachRegion elems body joinBody).branchIndices.Nodup ∧
    ((runForeachRegion elems body joinBody).joinExecuted = true ↔
      ∀ r ∈ (spawnBranches elems).map body, r.isSome) ∧
    ((∃ r ∈ (spawnBranches elems).map body, r = none) →
      (runForeachRegion elems body joinBody).joinExecuted = false ∧
      (runForeachRegion elems body joinBody).status = .failed) := by
  have hnodup : ((spawnBranches elems).map Prod.fst).Nodup := by
    unfold spawnBranches
    rw [List.enum_map_fst]
    exact List.nodup_range _
  have hlen : (spawnBranches elems).length = elems.length := by
    unfold spawnBranches
    exact List.enum_length
  unfold runForeachRegion
  by_cases h : ((spawnBranches elems).map body).all Option.isSome
  · rw [if_pos h]
    refine ⟨hlen, hnodup, ?_, ?_⟩
    · simpa [List.all_eq_true] using h
    · rintro ⟨r, hr, rfl⟩
      rw [List.all_eq_true] at h
      simpa using h none hr
  · rw [if_neg h]
    refine ⟨hlen, hnodup, ?_, fun _ => ⟨rfl, rfl⟩⟩
    constructor
    · intro hfalse
      exact absurd hfalse (by simp)
    · intro hall
      exact absurd (by simpa [List.all_eq_true] using hall) h

/-- Witness for C3 at a single branch that fails: one task is spawned, the
join does not run and the region fails. -/
theorem C3_foreach_join_barrier_witness :
    (runForeachRegion [true] (fun _ => (none : Option ℕ)) (fun _ => 0)).spawned
        = 1 ∧
    (runForeachRegion [true] (fun _ => (none : Option ℕ))
        (fun _ => 0)).joinExecuted = false ∧
    (runForeachRegion [true] (fun _ => (none : Option ℕ)) (fun _ => 0)).status
        = .failed := by
  have h := C3_foreach_join_barrier [true] (fun _ => (none : Option ℕ))
    (fun _ => 0)
  have hfail := h.2.2.2 ⟨none, by simp [spawnBranches], rfl⟩
  exact ⟨h.1, hfail.1, hfail.2⟩

/-- C4: at a join, if two converging branches supply different values for
the same artifact name forwarded without explicit resolution, the merge
raises `MergeConflictError`; if all values supplied for each forwarded
name agree, the merge succeeds. -/
theorem C4_merge_conflict {V : Type} [DecidableEq V]
    (branches : List (List (String × V))) (resolved : List String) :
    ((∃ b₁ ∈ branches, ∃ b₂ ∈ branches, ∃ n v₁ v₂,
        (n, v₁) ∈ b₁ ∧ (n, v₂) ∈ b₂ ∧ ¬ resolved.contains n ∧ v₁ ≠ v₂) →
      ∃ m, mergeArtifacts branches resolved =
        .error (.mergeConflict m)) ∧
    ((∀ p ∈ unresolvedPairs branches resolved,
        ∀ q ∈ unresolvedPairs branches resolved, p.1 = q.1 → p.2 = q.2) →
      mergeArtifacts branches resolved =
        .ok (unresolvedPairs branches resolved)) := by
  constructor
  · rintro ⟨b₁, hb₁, b₂, hb₂, n, v₁, v₂, hv₁, hv₂, hres, hne⟩
    have hmem₁ : (n, v₁) ∈ unresolvedPairs branches resolved := by
      unfold unresolvedPairs
      rw [List.mem_flatten]
      exact ⟨_, List.mem_map_of_mem _ hb₁, List.mem_filter.2 ⟨hv₁, by simpa using hres⟩⟩
    have hmem₂ : (n, v₂) ∈ unresolvedPairs branches resolved := by
      unfold unresolvedPairs
      rw [List.mem_flatten]
      exact ⟨_, List.mem_map_of_mem _ hb₂, List.mem_filter.2 ⟨hv₂, by simpa using hres⟩⟩
    unfold mergeArtifacts
    cases hfind : (unresolvedPairs branches resolved).find?
        (conflictAt (unresolvedPairs branches resolved)) with
    | none =>
        rw [List.find?_eq_none] at hfind
        refine absurd ?_ (hfind (n, v₁) hmem₁)
        unfold conflictAt
        rw [List.any_eq_true]
        exact ⟨(n, v₂), hmem₂, by simp [hne]⟩
    | some p => exact ⟨p.1, rfl⟩
  · intro hsame
    unfold mergeArtifacts
    have hfind : (unresolvedPairs branches resolved).find?
        (conflictAt (unresolvedPairs branches resolved)) = none := by
      rw [List.find?_eq_none]
      intro p hp
      unfold conflictAt
      rw [Bool.not_eq_true, ← Bool.not_eq_true, List.any_eq_true]
      rintro ⟨q, hq, hpq⟩
      rw [decide_eq_true_iff] at hpq
      exact hpq.2 (hsame p hp q hq hpq.1)
    rw [hfind]

/-- Witness for C4: two branches disagreeing on `"a"` conflict; two
branches agreeing on `"a"` merge successfully. -/
theorem C4_merge_conflict_witness :
    (∃ m, mergeArtifacts [[(("a" : String), (1 : ℕ))], [("a", 2)]] [] =
      .error (.mergeConflict m)) ∧
    mergeArtifacts [[(("a" : String), (1 : ℕ))], [("a", 1)]] [] =
      .ok (unresolvedPairs [[(("a" : String), (1 : ℕ))], [("a", 1)]] []) := by
  constructor
  · exact (C4_merge_conflict [[(("a" : String), (1 : ℕ))], [("a", 2)]] []).1
      ⟨[(("a" : String), (1 : ℕ))], by simp, [(("a" : String), (2 : ℕ))],
        by simp, "a", 1, 2, by simp, by simp, by simp, by decide⟩
  · exact (C4_merge_conflict [[(("a" : String), (1 : ℕ))], [("a", 1)]] []).2
      (by decide)

/-- C6: when the tracker connection attempted in `start` fails with cause
`e`, the step raises a `RuntimeError`-class error wrapping `e` (the single
attempt is not retried) and no subsequent step is scheduled — the run
aborts. -/
theorem C6_start_failure_fatal {ε ρ : Type} (e : ε) :
    startStep (ρ := ρ) (.error e) = .error (.runtimeError e) ∧
    stepsAfterStart (ρ := ρ) (.error e) = [] :=
  ⟨rfl, rfl⟩

/-- Witness for C6 at the concrete cause `0`. -/
theorem C6_start_failure_fatal_witness :
    startStep (ρ := ℕ) (Except.error (0 : ℕ)) =
      .error (.runtimeError 0) :=
  (C6_start_failure_fatal 0).1

/-- C5: the start node has exactly the two successors `cross_validation`
and `transform` (the two sibling regions), both regions reach the single
terminal join `register_model`, whose predecessors are exactly
`average_scores` and `train_model`; and the terminal join executes iff the
cross-validation region (including its nested foreach/join) has delivered
its result and the full-dataset region has delivered its result. -/
theorem C5_two_regions_converge :
    successors .start = [.cross_validation, .transform] ∧
    reachesIn 5 .cross_validation .register_model = true ∧
    reachesIn 2 .transform .register_model = true ∧
    predecessors .register_model = [.average_scores, .train_model] ∧
    (∀ (elems : List ℕ) (body : ℕ × ℕ → Option ℚ) (joinF : List ℚ → ℚ)
        (right : Option ℚ) (joinT : ℚ → ℚ → ℚ),
      (runConvergentJoin (runForeachRegion elems body joinF).joinOutput right
          joinT).isSome = true ↔
        (((spawnBranches elems).map body).all Option.isSome = true ∧
          right.isSome = true)) := by
  refine ⟨by decide, by decide, by decide, by decide, ?_⟩
  intro elems body joinF right joinT
  unfold runForeachRegion runConvergentJoin
  by_cases h : ((spawnBranches elems).map body).all Option.isSome
  · rw [if_pos h]
    cases right <;> simp [h]
  · rw [if_neg h]
    simp [h]

/-- Witness for C5's convergence condition at an empty foreach region and a
delivered sibling result. -/
theorem C5_two_regions_converge_witness :
    (runConvergentJoin
        (runForeachRegion ([] : List ℕ) (fun _ => some (0 : ℚ))
          (fun _ => 0)).joinOutput
        (some (0 : ℚ)) (fun a _ => a)).isSome = true :=
  (C5_two_regions_converge.2.2.2.2 [] (fun _ => some 0) (fun _ => 0)
    (some 0) (fun a _ => a)).mpr ⟨by decide, rfl⟩

/-- C8 counterexample: the claim places every branch index in the range
1..K, but the fold labels produced by `enumerate` start at 0 — for a
single generated element (K = 1) the assigned index is 0, which is not in
the range 1..1. -/
theorem C8_counterexample :
    ([42] : List ℕ).length = 1 ∧
    (enumerateFolds ([42] : List ℕ)).map Prod.fst = [0] ∧
    ¬ (0 ∈ List.range' 1 1) := by
  decide

/-- C8 (amended): every spawned branch receives a distinct index in the
range 0..K-1 — the labels are exactly `0, 1, ..., K-1` in order, pairwise
distinct and all below K, where K is the runtime length of the iterated
sequence. -/
theorem C8_branch_indices (α : Type) (splits : List α) :
    (enumerateFolds splits).map Prod.fst = List.range splits.length ∧
    ((enumerateFolds splits).map Prod.fst).Nodup ∧
    ∀ i ∈ (enumerateFolds splits).map Prod.fst, i < splits.length := by
  have h : (enumerateFolds splits).map Prod.fst = List.range splits.length := by
    unfold enumerateFolds
    exact List.enum_map_fst splits
  refine ⟨h, ?_, ?_⟩
  · rw [h]
    exact List.nodup_range _
  · intro i hi
    rw [h] at hi
    exact List.mem_range.1 hi

/-- Witness for C8 (amended) at the two-element list `[10, 20]`. -/
theorem C8_branch_indices_witness :
    (enumerateFolds ([10, 20] : List ℕ)).map Prod.fst = List.range 2 ∧
    (0 : ℕ) < 2 :=
  ⟨(C8_branch_indices ℕ [10, 20]).1,
    (C8_branch_indices ℕ [10, 20]).2.2 0
      (by decide : (0 : ℕ) ∈ (enumerateFolds ([10, 20] : List ℕ)).map Prod.fst)⟩

/-- C9: no step of the flow writes any of the four run parameters — the
artifact names a step assigns are disjoint from the parameter names — and
consequently executing the steps in any order leaves the run-scoped
parameter component of the state untouched: every step observes the values
fixed at start. -/
theorem C9_params_immutable :
    (allSteps.all (fun s =>
      paramNames.all (fun p => !(stepWrites s).contains p))) = true ∧
    ∀ (π : Type) (p : π) (a : List String) (order : List StepName),
      (order.foldl execStepNames (p, a)).1 = p := by
  refine ⟨by decide, ?_⟩
  intro π p a order
  induction order generalizing a with
  | nil => rfl
  | cons s rest ih => exact ih _

/-- Witness for C9: one concrete execution order keeps the parameter
component intact. -/
theorem C9_params_immutable_witness :
    (([StepName.start, .cross_validation, .register_model].foldl
      execStepNames ((7 : ℕ), [])).1) = 7 :=
  C9_params_immutable.2 ℕ 7 [] [.start, .cross_validation, .register_model]

/-- C10: whenever the dataset has at least 5 rows, the enumerated 5-fold
split built by `cross_validation` is produced (no `ValueError`) and has
exactly 5 elements — so the foreach spawns 5 branches and the K = 0 case
is unreachable. -/
theorem C10_five_folds (idx : List ℕ) (h : 5 ≤ idx.length) :
    (cross_validation_folds idx).map List.length = some 5 ∧
    cross_validation_folds idx ≠ none := by
  unfold cross_validation_folds kfoldSplit
  rw [if_neg (by omega)]
  refine ⟨?_, by simp⟩
  simp [enumerateFolds]

/-- Witness for C10 at a 10-row dataset. -/
theorem C10_five_folds_witness :
    (cross_validation_folds (List.range 10)).map List.length = some 5 ∧
    cross_validation_folds (List.range 10) ≠ none :=
  C10_five_folds (List.range 10) (by decide)

end Training
